import Mathlib

/-!
Verification of the neurodev-mcp core against its specification.

The development shallowly embeds three parts of the code base:
  * `generators/test_generator.py` (signature analysis and pytest scenario
    synthesis),
  * `analyzers/code_analyzer.py` (the structural AST rule engine
    `analyze_ast`),
  * the `code_review` aggregation branch of `server.py`.

Python machine-level concerns (subprocess invocation, the MCP transport,
temporary files) are external collaborators per the specification and are
modelled as inputs.
-/

namespace NeuroDev

/-- Lowercasing as performed by Python's `str.lower()` on the ASCII
identifiers and annotation texts handled by the generator. -/
def lowerStr (s : String) : String := ⟨s.data.map Char.toLower⟩

/-- `startsHere n h` holds when the character list `n` is an initial
segment of `h`; helper for the substring test. -/
def startsHere : List Char → List Char → Bool
  | [], _ => true
  | _ :: _, [] => false
  | c :: cs, d :: ds => c == d && startsHere cs ds

/-- `occursIn n h` holds when `n` occurs contiguously inside `h`. -/
def occursIn (needle : List Char) : List Char → Bool
  | [] => needle.isEmpty
  | c :: cs => startsHere needle (c :: cs) || occursIn needle cs

/-- Python's substring containment `needle in hay`. -/
def containsSub (needle hay : String) : Bool := occursIn needle.data hay.data

/-- Python's `s.startswith(pre)`. -/
def startsWithStr (s pre : String) : Bool := startsHere pre.data s.data

/-- Splitting a character list at every occurrence of `c`, the semantics
of Python's `str.split` with a one-character separator. -/
def splitChar (c : Char) : List Char → List (List Char)
  | [] => [[]]
  | d :: rest =>
    if d == c then [] :: splitChar c rest
    else
      match splitChar c rest with
      | [] => [[d]]
      | h :: t => (d :: h) :: t

/-- Python's `s.split("\n")`. -/
def splitLines (s : String) : List String :=
  (splitChar (Char.ofNat 10) s.data).map (fun l => ⟨l⟩)

/-- The whitespace characters Python's `str.strip()` removes. -/
def pyWhitespace (c : Char) : Bool :=
  c == ' ' || c == Char.ofNat 9 || c == Char.ofNat 10 || c == Char.ofNat 13 ||
    c == Char.ofNat 11 || c == Char.ofNat 12

/-- A formal parameter as recorded by `analyze_function`
(test_generator.py lines 23-27): the parameter's name and, when present,
the unparsed type annotation text. -/
structure Param where
  name : String
  typeAnn : Option String
deriving DecidableEq, Repr

mutual

/-- Statements of a function body, as far as the `RaiseVisitor` of
`analyze_function` observes them: raise statements (carrying the unparsed
raised expression, `none` for a bare `raise`), nested function
definitions, compound statements with nested bodies, and anything else. -/
inductive StmtTree where
  | raiseS (exc : Option String)
  | defS (name : String) (body : StmtList)
  | blockS (body : StmtList)
  | passS

/-- Statement lists, mutually inductive with `StmtTree`. -/
inductive StmtList where
  | nilS
  | consS (s : StmtTree) (rest : StmtList)

end

/-- A Python function definition as consumed by `analyze_function`:
name, positional parameters, optional return annotation, optional
docstring, and the body statement list. -/
structure FuncDef where
  name : String
  args : List Param
  returns : Option String
  docstring : Option String
  body : StmtList

/-- `ast.unparse(node.exc).split('(')[0]`: the head of the raised
expression's text, cut at the first opening parenthesis
(test_generator.py line 37). -/
def headIdent (s : String) : String :=
  match splitChar '(' s.data with
  | [] => s
  | h :: _ => ⟨h⟩

mutual

/-- Raise identifiers collected from one statement by the `RaiseVisitor`
(test_generator.py lines 34-40).  The visitor has no `visit_FunctionDef`
override, so `generic_visit` descends into nested function bodies as
well. -/
def stmtRaises : StmtTree → List String
  | .raiseS none => []
  | .raiseS (some e) => [headIdent e]
  | .defS _ body => stmtListRaises body
  | .blockS body => stmtListRaises body
  | .passS => []

/-- Raise identifiers collected from a statement list, in order. -/
def stmtListRaises : StmtList → List String
  | .nilS => []
  | .consS s rest => stmtRaises s ++ stmtListRaises rest

end

mutual

/-- `stmtHasRaise e s` holds when a `raise` whose unparsed exception text
is exactly `e` occurs anywhere in `s`, nested function bodies included. -/
def stmtHasRaise (e : String) : StmtTree → Bool
  | .raiseS none => false
  | .raiseS (some e2) => e2 == e
  | .defS _ body => stmtListHasRaise e body
  | .blockS body => stmtListHasRaise e body
  | .passS => false

/-- `stmtListHasRaise e l`: some statement of `l` contains the raise. -/
def stmtListHasRaise (e : String) : StmtList → Bool
  | .nilS => false
  | .consS s rest => stmtHasRaise e s || stmtListHasRaise e rest

end

/-- The analysis record built by `analyze_function`
(test_generator.py lines 11-42); the `calls` entry of the Python dict is
never populated and is omitted. -/
structure FuncInfo where
  name : String
  args : List Param
  returns : Option String
  docstring : Option String
  raises : List String
deriving Repr

/-- `TestGenerator.analyze_function` (test_generator.py lines 11-42). -/
def analyze_function (f : FuncDef) : FuncInfo :=
  { name := f.name
    args := f.args
    returns := f.returns
    docstring := f.docstring
    raises := stmtListRaises f.body }

/-- `(arg.get("annotation") or "").lower()` as used throughout
`generate_test_cases`. -/
def annLower (a : Param) : String := lowerStr (a.typeAnn.getD "")

/-- The first heuristic rule of `generate_test_cases`
(test_generator.py line 59): `"int" in annotation_lower or
"num" in arg_name.lower()`. -/
def codeIntRule (a : Param) : Bool :=
  containsSub "int" (annLower a) || containsSub "num" (lowerStr a.name)

/-- The heuristic argument value for one parameter
(test_generator.py lines 53-72), first matching rule wins. -/
def chooseValue (a : Param) : String :=
  if codeIntRule a then "1"
  else if containsSub "str" (annLower a) || containsSub "name" (lowerStr a.name)
      || containsSub "text" (lowerStr a.name) then "\"test_string\""
  else if containsSub "bool" (annLower a) || startsWithStr a.name "is_"
      || startsWithStr a.name "has_" then "True"
  else if containsSub "list" (annLower a) then "[1, 2, 3]"
  else if containsSub "dict" (annLower a) then "\x7b\"key\": \"value\"\x7d"
  else if containsSub "path" (lowerStr a.name)
      || containsSub "file" (lowerStr a.name) then "\"/tmp/test_file\""
  else "None"

/-- The `test_args` list of the basic scenario
(test_generator.py lines 52-72). -/
def test_args (args : List Param) : List String := args.map chooseValue

/-- `"int" in (arg.get("annotation") or "").lower()`, the condition that
gates the edge-case scenario and selects which parameters become `0`
(test_generator.py lines 84 and 87). -/
def intAnn (a : Param) : Bool := containsSub "int" (annLower a)

/-- `any("int" in (arg.get("annotation") or "").lower() for arg in args)`
(test_generator.py line 84). -/
def hasIntAnn (args : List Param) : Bool := args.any intAnn

/-- Python's `list.index`: index of the first element equal to `a`
(returns the length when absent; `generate_test_cases` only calls it on
members). -/
def listIndex (a : Param) : List Param → Nat
  | [] => 0
  | b :: rest => if b = a then 0 else listIndex a rest + 1

/-- The `edge_args` list (test_generator.py lines 85-90): `0` for
parameters whose annotation mentions `int`, otherwise
`test_args[args.index(arg)]`. -/
def edge_args (args : List Param) : List String :=
  args.map (fun a =>
    if intAnn a then "0" else (test_args args).getD (listIndex a args) "")

/-- `arg.get("annotation")` used as a truth value
(test_generator.py line 110): `None` and the empty string are falsy. -/
def annTruthy (a : Param) : Bool := !(a.typeAnn.getD "" == "")

/-- Scenario kinds of the synthesizer. -/
inductive TestKind where
  | basic
  | edgeCase
  | exceptionCheck
  | typeValidation
deriving DecidableEq, Repr

/-- One synthesized test scenario: the kind tag, the emitted test
function's name, the positional argument literals of the emitted call
(tracked for the basic and edge-case scenarios), and the full emitted
source text. -/
structure Scenario where
  kind : TestKind
  testName : String
  callArgs : List String
  text : String
deriving DecidableEq, Repr

/-- Emitted text of the basic scenario (test_generator.py lines 76-81). -/
def basicText (name argsStr : String) : String :=
  "\ndef test_" ++ name ++ "_basic():\n    \"\"\"Test " ++ name ++
    " with basic valid inputs.\"\"\"\n    result = " ++ name ++ "(" ++ argsStr ++
    ")\n    assert result is not None\n"

/-- Emitted text of the edge-case scenario
(test_generator.py lines 92-97). -/
def edgeText (name edgeStr : String) : String :=
  "\ndef test_" ++ name ++ "_edge_case_zero():\n    \"\"\"Test " ++ name ++
    " with edge case: zero values.\"\"\"\n    result = " ++ name ++ "(" ++
    edgeStr ++ ")\n    assert result is not None\n"

/-- Emitted text of an exception-check scenario
(test_generator.py lines 102-107). -/
def excText (name exc : String) : String :=
  "\ndef test_" ++ name ++ "_raises_" ++ lowerStr exc ++
    "():\n    \"\"\"Test " ++ name ++ " raises " ++ exc ++
    " appropriately.\"\"\"\n    with pytest.raises(" ++ exc ++
    "):\n        " ++ name ++ "(invalid_input)\n"

/-- Python `repr` of one argument-info dict, interpolated verbatim into
the type-validation test (test_generator.py line 115). -/
def pyReprParam (a : Param) : String :=
  "\x7b\x27name\x27: \x27" ++ a.name ++ "\x27, \x27annotation\x27: " ++
    (match a.typeAnn with
     | none => "None"
     | some s => "\x27" ++ s ++ "\x27") ++ "\x7d"

/-- Python `repr` of the argument-info list. -/
def pyReprArgs (args : List Param) : String :=
  "[" ++ String.intercalate ", " (args.map pyReprParam) ++ "]"

/-- Emitted text of the type-validation scenario
(test_generator.py lines 111-116). -/
def typeText (name : String) (args : List Param) : String :=
  "\ndef test_" ++ name ++ "_type_validation():\n    \"\"\"Test " ++ name ++
    " with incorrect types.\"\"\"\n    with pytest.raises((TypeError, ValueError, AttributeError)):\n        " ++
    name ++ "(\"wrong_type\" if not any(\"str\" in (arg.get(\"annotation\") or \"\").lower() for arg in " ++
    pyReprArgs args ++ ") else 123)\n"

/-- `TestGenerator.generate_test_cases`
(test_generator.py lines 45-118): basic always; edge case when some
annotation mentions `int`; one exception check per entry of `raises`;
type validation when some parameter has a truthy annotation. -/
def generate_test_cases (info : FuncInfo) : List Scenario :=
  let name := info.name
  let targs := test_args info.args
  let argsStr := String.intercalate ", " targs
  let basicS : Scenario :=
    ⟨.basic, "test_" ++ name ++ "_basic", targs, basicText name argsStr⟩
  let edgeL : List Scenario :=
    if hasIntAnn info.args then
      [⟨.edgeCase, "test_" ++ name ++ "_edge_case_zero", edge_args info.args,
        edgeText name (String.intercalate ", " (edge_args info.args))⟩]
    else []
  let excL : List Scenario :=
    info.raises.map (fun exc =>
      ⟨.exceptionCheck, "test_" ++ name ++ "_raises_" ++ lowerStr exc,
        ["invalid_input"], excText name exc⟩)
  let typeL : List Scenario :=
    if info.args.any annTruthy then
      [⟨.typeValidation, "test_" ++ name ++ "_type_validation", [],
        typeText name info.args⟩]
    else []
  basicS :: (edgeL ++ excL ++ typeL)

/-- Recognizer for edge-case scenarios. -/
def isEdgeCase (sc : Scenario) : Bool :=
  match sc.kind with
  | .edgeCase => true
  | _ => false

/-- Recognizer for exception-check scenarios. -/
def isExcCheck (sc : Scenario) : Bool :=
  match sc.kind with
  | .exceptionCheck => true
  | _ => false

/-- Recognizer for basic scenarios. -/
def isBasic (sc : Scenario) : Bool :=
  match sc.kind with
  | .basic => true
  | _ => false

/-- A class-body item as `generate_tests` distinguishes them: a method
definition or anything else. -/
inductive ClsItem where
  | methodI (f : FuncDef)
  | otherI

/-- A top-level item of the parsed module as `generate_tests`
distinguishes them: a function definition, a class definition, or
anything else. -/
inductive TopItem where
  | fnT (f : FuncDef)
  | clsT (name : String) (body : List ClsItem)
  | otherT

/-- Top-level functions selected for test generation
(test_generator.py line 128): `FunctionDef`s whose name does not start
with an underscore. -/
def topFns (items : List TopItem) : List FuncDef :=
  items.filterMap (fun it =>
    match it with
    | .fnT f => if startsWithStr f.name "_" then none else some f
    | _ => none)

/-- Top-level classes (test_generator.py line 129): every `ClassDef`. -/
def topClasses (items : List TopItem) : List (String × List ClsItem) :=
  items.filterMap (fun it =>
    match it with
    | .clsT n b => some (n, b)
    | _ => none)

/-- Methods of a class selected for test generation
(test_generator.py line 152): non-underscore `FunctionDef`s of the class
body. -/
def clsMethods (body : List ClsItem) : List FuncDef :=
  body.filterMap (fun it =>
    match it with
    | .methodI f => if startsWithStr f.name "_" then none else some f
    | _ => none)

/-- Re-indentation of one emitted line for a class container
(test_generator.py line 157): four spaces unless the line is blank after
stripping. -/
def indentLine (line : String) : String :=
  if line.data.all pyWhitespace then line else "    " ++ line

/-- The lines a class contributes to the output
(test_generator.py lines 147-157). -/
def classBlock (cname : String) (body : List ClsItem) : List String :=
  ["\n\nclass Test" ++ cname ++ ":",
   "    \"\"\"Tests for " ++ cname ++ " class.\"\"\""] ++
  (clsMethods body).flatMap (fun m =>
    (generate_test_cases (analyze_function m)).flatMap (fun sc =>
      (splitLines sc.text).map indentLine))

/-- The fixed header lines of the output
(test_generator.py lines 131-138). -/
def headerLines (module_name : String) : List String :=
  ["import pytest",
   "from " ++ module_name ++ " import *",
   "",
   "# Auto-generated tests by NeuroDev MCP",
   "# Review and customize as needed",
   ""]

/-- `TestGenerator.generate_tests` on a parsed module
(test_generator.py lines 120-159): header, then the test-case texts of
every eligible top-level function, then one container block per class. -/
def generate_tests (items : List TopItem) (module_name : String) : String :=
  String.intercalate "\n"
    (headerLines module_name ++
     (topFns items).flatMap (fun f =>
       (generate_test_cases (analyze_function f)).map Scenario.text) ++
     (topClasses items).flatMap (fun p => classBlock p.1 p.2))

/-- A valid identifier character after the first position, in the
target language's (Python's) grammar. -/
def pyIdentChar (c : Char) : Bool := c.isAlphanum || c == '_'

/-- A valid identifier of the target language: nonempty, first character
a letter or underscore, the rest alphanumeric or underscore.  A `def`
statement whose name fails this check is not parseable. -/
def pyIdentOk (s : String) : Bool :=
  match s.toList with
  | [] => false
  | c :: rest => (c.isAlpha || c == '_') && rest.all pyIdentChar

/-- Modelled from the spec: integer heuristic rule 1 — "annotation or
name contains int/num, or name equals n". -/
def specIntegerRule (a : Param) : Bool :=
  containsSub "int" (annLower a) || containsSub "num" (annLower a) ||
  containsSub "int" (lowerStr a.name) || containsSub "num" (lowerStr a.name) ||
  (a.name == "n")

/-! ### Helper lemmas about the argument heuristics -/

theorem list_getD_map (f : Param → String) (d : String) :
    ∀ (args : List Param) (i : Nat), i < args.length →
      (args.map f).getD i d = f (args.getD i ⟨"", none⟩) := by
  intro args
  induction args with
  | nil => intro i hi; simp at hi
  | cons b t ih =>
    intro i hi
    cases i with
    | zero => rfl
    | succ j =>
      simp only [List.map_cons, List.getD_cons_succ]
      exact ih j (by simpa using hi)

theorem list_getD_mem :
    ∀ (args : List Param) (i : Nat), i < args.length →
      args.getD i ⟨"", none⟩ ∈ args := by
  intro args
  induction args with
  | nil => intro i hi; simp at hi
  | cons b t ih =>
    intro i hi
    cases i with
    | zero => simp
    | succ j =>
      simp only [List.getD_cons_succ]
      exact List.mem_cons_of_mem _ (ih j (by simpa using hi))

theorem testArgs_listIndex (args : List Param) (a : Param) (ha : a ∈ args) :
    (test_args args).getD (listIndex a args) "" = chooseValue a := by
  induction args with
  | nil => cases ha
  | cons b t ih =>
    by_cases hb : b = a
    · subst hb
      simp [listIndex, test_args]
    · have ha' : a ∈ t := by
        rcases List.mem_cons.mp ha with h | h
        · exact absurd h.symm hb
        · exact h
      simp only [test_args, List.map_cons, listIndex, if_neg hb,
        List.getD_cons_succ]
      exact ih ha'

theorem edge_args_eq (args : List Param) :
    edge_args args =
      args.map (fun a => if intAnn a then "0" else chooseValue a) := by
  unfold edge_args
  apply List.map_congr_left
  intro a ha
  by_cases h : intAnn a = true
  · rw [if_pos h, if_pos h]
  · rw [if_neg h]
    rw [if_neg h]
    exact testArgs_listIndex args a ha

theorem filter_map_all {α β : Type} (p : β → Bool) (f : α → β) (l : List α)
    (hp : ∀ a, p (f a) = true) : (l.map f).filter p = l.map f := by
  induction l with
  | nil => rfl
  | cons a t ih => simp [List.filter_cons, hp, ih]

theorem filter_map_nil {α β : Type} (p : β → Bool) (f : α → β) (l : List α)
    (hp : ∀ a, p (f a) = false) : (l.map f).filter p = [] := by
  induction l with
  | nil => rfl
  | cons a t ih => simp [List.filter_cons, hp, ih]

/-! ### Claim theorems for the test synthesizer -/

/-- The one-parameter function `def f(n): ...` used against C1. -/
def fParamN : FuncDef := ⟨"f", [⟨"n", none⟩], none, none, .nilS⟩

/-- C1 counterexample: for a parameter named exactly `n` with no
annotation, the basic scenario's argument is the literal `None`, not the
integer literal `1` the claim requires. -/
theorem c1_counterexample :
    (generate_test_cases (analyze_function fParamN)).map Scenario.callArgs =
      [["None"]] ∧
    (["None"] : List String) ≠ ["1"] := by
  exact ⟨rfl, by decide⟩

/-- C1 (amended): a parameter receives the integer literal `1` in the
basic arguments exactly when its annotation contains `int` or its
lowercased name contains `num` (a non-matching parameter — e.g. one
whose name merely contains `int` — never receives `1`); in the
edge-case arguments a parameter is `0` exactly when its annotation
contains `int` and keeps its basic value (never `0`) otherwise; a
parameter named exactly `n` with no annotation receives `None`. -/
theorem c1_amended (args : List Param) (i : Nat) (hi : i < args.length) :
    (codeIntRule (args.getD i ⟨"", none⟩) = true →
      (test_args args).getD i "" = "1") ∧
    (codeIntRule (args.getD i ⟨"", none⟩) = false →
      (test_args args).getD i "" ≠ "1") ∧
    (intAnn (args.getD i ⟨"", none⟩) = true →
      (edge_args args).getD i "" = "0") ∧
    (intAnn (args.getD i ⟨"", none⟩) = false →
      (edge_args args).getD i "" = (test_args args).getD i "") ∧
    (intAnn (args.getD i ⟨"", none⟩) = false →
      (edge_args args).getD i "" ≠ "0") ∧
    ((args.getD i ⟨"", none⟩).name = "n" ∧
        (args.getD i ⟨"", none⟩).typeAnn = none →
      (test_args args).getD i "" = "None") := by
  have h1 : (test_args args).getD i "" =
      chooseValue (args.getD i ⟨"", none⟩) :=
    list_getD_map chooseValue "" args i hi
  have h2 : (edge_args args).getD i "" =
      (if intAnn (args.getD i ⟨"", none⟩) then "0"
       else chooseValue (args.getD i ⟨"", none⟩)) := by
    rw [edge_args_eq]
    exact list_getD_map _ "" args i hi
  have key : ∀ a : Param, codeIntRule a = true → chooseValue a = "1" := by
    intro a h
    unfold chooseValue
    rw [if_pos h]
  have key2 : ∀ a : Param, codeIntRule a = false → chooseValue a ≠ "1" := by
    intro a h
    unfold chooseValue
    rw [if_neg (by rw [h]; exact Bool.false_ne_true)]
    split_ifs <;> decide
  have key3 : ∀ a : Param, chooseValue a ≠ "0" := by
    intro a
    unfold chooseValue
    split_ifs <;> decide
  refine ⟨?_, ?_, ?_, ?_, ?_, ?_⟩
  · intro h
    rw [h1]
    exact key _ h
  · intro h
    rw [h1]
    exact key2 _ h
  · intro h
    rw [h2, if_pos h]
  · intro h
    have hneg : ¬ (intAnn (args.getD i ⟨"", none⟩) = true) := by
      rw [h]
      exact Bool.false_ne_true
    rw [h2, if_neg hneg, h1]
  · intro h
    have hneg : ¬ (intAnn (args.getD i ⟨"", none⟩) = true) := by
      rw [h]
      exact Bool.false_ne_true
    rw [h2, if_neg hneg]
    exact key3 _
  · rintro ⟨hn, hann⟩
    rw [h1]
    have ha : args.getD i ⟨"", none⟩ = ⟨"n", none⟩ := by
      cases hpa : args.getD i ⟨"", none⟩ with
      | mk nm an =>
        rw [hpa] at hn hann
        simp only at hn hann
        rw [hn, hann]
    rw [ha]
    decide

/-- Witness for `c1_amended` at a concrete signature. -/
theorem c1_amended_witness :
    (0 : Nat) < ([⟨"count", some "int"⟩] : List Param).length ∧
    ((codeIntRule (([⟨"count", some "int"⟩] : List Param).getD 0 ⟨"", none⟩) = true →
        (test_args [⟨"count", some "int"⟩]).getD 0 "" = "1") ∧
      (codeIntRule (([⟨"count", some "int"⟩] : List Param).getD 0 ⟨"", none⟩) = false →
        (test_args [⟨"count", some "int"⟩]).getD 0 "" ≠ "1") ∧
      (intAnn (([⟨"count", some "int"⟩] : List Param).getD 0 ⟨"", none⟩) = true →
        (edge_args [⟨"count", some "int"⟩]).getD 0 "" = "0") ∧
      (intAnn (([⟨"count", some "int"⟩] : List Param).getD 0 ⟨"", none⟩) = false →
        (edge_args [⟨"count", some "int"⟩]).getD 0 "" =
          (test_args [⟨"count", some "int"⟩]).getD 0 "") ∧
      (intAnn (([⟨"count", some "int"⟩] : List Param).getD 0 ⟨"", none⟩) = false →
        (edge_args [⟨"count", some "int"⟩]).getD 0 "" ≠ "0") ∧
      ((([⟨"count", some "int"⟩] : List Param).getD 0 ⟨"", none⟩).name = "n" ∧
          (([⟨"count", some "int"⟩] : List Param).getD 0 ⟨"", none⟩).typeAnn = none →
        (test_args [⟨"count", some "int"⟩]).getD 0 "" = "None")) :=
  ⟨by decide, c1_amended [⟨"count", some "int"⟩] 0 (by decide)⟩

/-- The one-parameter function `def g(num): ...` used against C2. -/
def fParamNum : FuncDef := ⟨"g", [⟨"num", none⟩], none, none, .nilS⟩

/-- C2 counterexample: the parameter `num` matches the spec's integer
heuristic (rule 1), yet no edge-case scenario is emitted — only the
basic one. -/
theorem c2_counterexample :
    specIntegerRule ⟨"num", none⟩ = true ∧
    (generate_test_cases (analyze_function fParamNum)).map Scenario.kind =
      [TestKind.basic] := by
  exact ⟨by decide, rfl⟩

/-- C2 (amended): the edge-case scenario is emitted iff some parameter's
annotation contains `int`; its arguments replace exactly the
`int`-annotated parameters by `0` and keep every other parameter's basic
value; the basic scenario always carries the heuristic values. -/
theorem c2_amended (info : FuncInfo) :
    ((generate_test_cases info).filter isEdgeCase).map Scenario.callArgs =
      (if info.args.any intAnn then
        [info.args.map (fun a => if intAnn a then "0" else chooseValue a)]
      else []) ∧
    ((generate_test_cases info).filter isBasic).map Scenario.callArgs =
      [info.args.map chooseValue] := by
  have hfe : ((info.raises.map (fun exc =>
      (⟨TestKind.exceptionCheck,
        "test_" ++ info.name ++ "_raises_" ++ lowerStr exc,
        ["invalid_input"], excText info.name exc⟩ : Scenario))).filter
        isEdgeCase) = [] :=
    filter_map_nil _ _ _ (fun a => rfl)
  have hfb : ((info.raises.map (fun exc =>
      (⟨TestKind.exceptionCheck,
        "test_" ++ info.name ++ "_raises_" ++ lowerStr exc,
        ["invalid_input"], excText info.name exc⟩ : Scenario))).filter
        isBasic) = [] :=
    filter_map_nil _ _ _ (fun a => rfl)
  constructor
  · by_cases h : info.args.any intAnn <;>
      by_cases h2 : info.args.any annTruthy <;>
        simp [generate_test_cases, hasIntAnn, h, h2, List.filter_cons,
          List.filter_append, isEdgeCase, edge_args_eq, hfe]
  · by_cases h : info.args.any intAnn <;>
      by_cases h2 : info.args.any annTruthy <;>
        simp [generate_test_cases, hasIntAnn, h, h2, List.filter_cons,
          List.filter_append, isBasic, test_args, hfb]

/-- The function `def h(): ...` with a nested `def inner(): raise
ValueError(x)` used against C3. -/
def fNested : FuncDef :=
  ⟨"h", [], none, none,
    .consS (.defS "inner" (.consS (.raiseS (some "ValueError(x)")) .nilS)) .nilS⟩

/-- C3 counterexample: the raise sits inside a nested function body, yet
`analyze_function` still collects it, against the claim's exclusion. -/
theorem c3_counterexample :
    (analyze_function fNested).raises = ["ValueError"] ∧
    (["ValueError"] : List String) ≠ ([] : List String) := by
  exact ⟨rfl, by decide⟩

mutual

theorem mem_stmtRaises (r : String) (s : StmtTree) :
    r ∈ stmtRaises s ↔ ∃ e, stmtHasRaise e s = true ∧ headIdent e = r := by
  cases s with
  | raiseS exc =>
    cases exc with
    | none => simp [stmtRaises, stmtHasRaise]
    | some e =>
      simp only [stmtRaises, stmtHasRaise, List.mem_singleton, beq_iff_eq]
      constructor
      · intro h
        exact ⟨e, rfl, h.symm⟩
      · rintro ⟨e2, he, hh⟩
        rw [he]
        exact hh.symm
  | defS n body =>
    simp only [stmtRaises, stmtHasRaise]
    exact mem_stmtListRaises r body
  | blockS body =>
    simp only [stmtRaises, stmtHasRaise]
    exact mem_stmtListRaises r body
  | passS => simp [stmtRaises, stmtHasRaise]

theorem mem_stmtListRaises (r : String) (l : StmtList) :
    r ∈ stmtListRaises l ↔
      ∃ e, stmtListHasRaise e l = true ∧ headIdent e = r := by
  cases l with
  | nilS => simp [stmtListRaises, stmtListHasRaise]
  | consS s rest =>
    simp only [stmtListRaises, stmtListHasRaise, List.mem_append,
      Bool.or_eq_true]
    rw [mem_stmtRaises r s, mem_stmtListRaises r rest]
    constructor
    · rintro (⟨e, he, hh⟩ | ⟨e, he, hh⟩)
      · exact ⟨e, Or.inl he, hh⟩
      · exact ⟨e, Or.inr he, hh⟩
    · rintro ⟨e, he | he, hh⟩
      · exact Or.inl ⟨e, he, hh⟩
      · exact Or.inr ⟨e, he, hh⟩

end

/-- C3 (amended): `raisedErrors` contains exactly the head identifiers
of the raised expressions occurring anywhere in the function's subtree,
nested function bodies included. -/
theorem c3_amended (f : FuncDef) (r : String) :
    r ∈ (analyze_function f).raises ↔
      ∃ e, stmtListHasRaise e f.body = true ∧ headIdent e = r := by
  simpa [analyze_function] using mem_stmtListRaises r f.body

/-- A function raising `ValueError` from two separate raise statements,
used against C4. -/
def fDupRaise : FuncDef :=
  ⟨"f", [], none, none,
    .consS (.raiseS (some "ValueError(a)"))
      (.consS (.raiseS (some "ValueError(b)")) .nilS)⟩

/-- C4 counterexample: two raise statements of the same error yield two
exception-check scenarios with the identical name — no deduplication and
no numeric suffix. -/
theorem c4_counterexample :
    (generate_test_cases (analyze_function fDupRaise)).map Scenario.testName =
      ["test_f_basic", "test_f_raises_valueerror", "test_f_raises_valueerror"] ∧
    ¬ (["test_f_basic", "test_f_raises_valueerror",
        "test_f_raises_valueerror"] : List String).Nodup := by
  exact ⟨rfl, by decide⟩

/-- C4 (amended): one exception-check scenario is emitted per occurrence
in the `raises` list (duplicates included), named
`test_<name>_raises_<lowercased error>`, with no disambiguating
suffix — so duplicate raised errors produce colliding names. -/
theorem c4_amended (info : FuncInfo) :
    ((generate_test_cases info).filter isExcCheck).map Scenario.testName =
      info.raises.map (fun exc =>
        "test_" ++ info.name ++ "_raises_" ++ lowerStr exc) := by
  have hfa : ((info.raises.map (fun exc =>
      (⟨TestKind.exceptionCheck,
        "test_" ++ info.name ++ "_raises_" ++ lowerStr exc,
        ["invalid_input"], excText info.name exc⟩ : Scenario))).filter
        isExcCheck) =
      info.raises.map (fun exc =>
        (⟨TestKind.exceptionCheck,
          "test_" ++ info.name ++ "_raises_" ++ lowerStr exc,
          ["invalid_input"], excText info.name exc⟩ : Scenario)) :=
    filter_map_all _ _ _ (fun a => rfl)
  by_cases h : hasIntAnn info.args <;>
    by_cases h2 : info.args.any annTruthy <;>
      simp [generate_test_cases, h, h2, List.filter_cons, List.filter_append,
        isExcCheck, List.map_map, Function.comp_def, hfa]

/-- The function `def f(x): raise os.error(x)` whose raised-error text is
dotted, used against C9. -/
def fDotted : FuncDef :=
  ⟨"f", [⟨"x", none⟩], none, none,
    .consS (.raiseS (some "os.error(x)")) .nilS⟩

/-- C9: on the failing input `def f(x): raise os.error(x)` the generator
emits an exception-check test whose `def` name is
`test_f_raises_os.error`, which is not a valid identifier of the target
language, so the emitted text does not parse — against the spec's
requirement that the serialized output be syntactically valid. -/
theorem c9_code_bug :
    ((generate_test_cases (analyze_function fDotted)).filter isExcCheck).map
        Scenario.testName = ["test_f_raises_os.error"] ∧
    pyIdentOk "test_f_raises_os.error" = false ∧
    "def test_f_raises_os.error():" ∈ splitLines (excText "f" "os.error") ∧
    ((generate_test_cases (analyze_function fDotted)).filter isExcCheck).map
        Scenario.text = [excText "f" "os.error"] := by
  refine ⟨rfl, by decide, by decide, rfl⟩

/-- C10: inserting a top-level function whose name starts with an
underscore anywhere in the module leaves the generated test source
unchanged, exactly as inserting an underscore-prefixed method into a
class body does. -/
theorem c10_underscore (pre post : List TopItem) (f : FuncDef)
    (cname : String) (mpre mpost : List ClsItem) (module_name : String)
    (hf : startsWithStr f.name "_" = true) :
    generate_tests (pre ++ TopItem.fnT f :: post) module_name =
      generate_tests (pre ++ post) module_name ∧
    generate_tests
        (pre ++ TopItem.clsT cname (mpre ++ ClsItem.methodI f :: mpost) :: post)
        module_name =
      generate_tests (pre ++ TopItem.clsT cname (mpre ++ mpost) :: post)
        module_name := by
  have hfns : ∀ xs ys : List TopItem,
      topFns (xs ++ TopItem.fnT f :: ys) = topFns (xs ++ ys) := by
    intro xs ys
    simp [topFns, List.filterMap_append, List.filterMap_cons, hf]
  have hcls : ∀ xs ys : List TopItem,
      topClasses (xs ++ TopItem.fnT f :: ys) = topClasses (xs ++ ys) := by
    intro xs ys
    simp [topClasses, List.filterMap_append, List.filterMap_cons]
  have hm : clsMethods (mpre ++ ClsItem.methodI f :: mpost) =
      clsMethods (mpre ++ mpost) := by
    simp [clsMethods, List.filterMap_append, List.filterMap_cons, hf]
  constructor
  · unfold generate_tests
    rw [hfns, hcls]
  · unfold generate_tests
    have h1 : ∀ (b : List ClsItem),
        topFns (pre ++ TopItem.clsT cname b :: post) = topFns (pre ++ post) := by
      intro b
      simp [topFns, List.filterMap_append, List.filterMap_cons]
    have hsplit : ∀ (b : List ClsItem),
        topClasses (pre ++ TopItem.clsT cname b :: post) =
          topClasses pre ++ (cname, b) :: topClasses post := by
      intro b
      simp [topClasses, List.filterMap_append, List.filterMap_cons]
    have hcb : classBlock cname (mpre ++ ClsItem.methodI f :: mpost) =
        classBlock cname (mpre ++ mpost) := by
      unfold classBlock
      rw [hm]
    rw [h1, h1, hsplit, hsplit]
    simp only [List.flatMap_append, List.flatMap_cons]
    rw [hcb]

/-! ### The structural rule engine `analyze_ast` (code_analyzer.py) -/

/-- One structural issue record as appended by `CodeVisitor`
(code_analyzer.py lines 177-233). -/
structure Issue where
  type : String
  line : Nat
  severity : String
  message : String
deriving DecidableEq, Repr

/-- The `stats` dictionary of `analyze_ast`
(code_analyzer.py lines 161-166). -/
structure Stats where
  functions : Nat
  classes : Nat
  lines : Nat
  imports : Nat
deriving DecidableEq, Repr

mutual

/-- A node of the parsed tree as `CodeVisitor` distinguishes them:
function definitions (name, line, parameter count, docstring, end line,
body), class definitions, plain imports, from-imports, and any other
node with children. -/
inductive Node where
  | fnN (name : String) (lineno : Nat) (nargs : Nat)
      (docstring : Option String) (endLineno : Option Nat) (body : NodeList)
  | clsN (name : String) (lineno : Nat) (docstring : Option String)
      (body : NodeList)
  | importN (lineno : Nat) (names : List String)
  | importFromN (lineno : Nat) (module : Option String) (names : List String)
  | otherN (body : NodeList)

/-- Node lists, mutually inductive with `Node`. -/
inductive NodeList where
  | nilN
  | consN (n : Node) (rest : NodeList)

end

/-- Truthiness of `ast.get_docstring(node)`: `None` and the empty string
are falsy, so both count as a missing docstring
(code_analyzer.py lines 181 and 209). -/
def docTruthy : Option String → Bool
  | none => false
  | some s => !(s == "")

mutual

/-- Issues contributed by one node, in the visitor's pre-order: the
node's own checks (docstring, parameter count, body length, wildcard
import), then its children via `generic_visit`
(code_analyzer.py lines 177-235). -/
def nodeIssues : Node → List Issue
  | .fnN name lineno nargs doc endL body =>
    (if docTruthy doc then [] else
      [⟨"missing_docstring", lineno, "info",
        "Function \x27" ++ name ++ "\x27 missing docstring"⟩]) ++
    (if nargs > 7 then
      [⟨"too_many_args", lineno, "warning",
        "Function \x27" ++ name ++ "\x27 has " ++ Nat.repr nargs ++
          " parameters (>7)"⟩]
    else []) ++
    (if (endL.getD lineno) - lineno > 50 then
      [⟨"long_function", lineno, "warning",
        "Function \x27" ++ name ++ "\x27 is " ++
          Nat.repr ((endL.getD lineno) - lineno) ++ " lines long (>50)"⟩]
    else []) ++
    nodeListIssues body
  | .clsN name lineno doc body =>
    (if docTruthy doc then [] else
      [⟨"missing_docstring", lineno, "info",
        "Class \x27" ++ name ++ "\x27 missing docstring"⟩]) ++
    nodeListIssues body
  | .importN _ _ => []
  | .importFromN lineno module names =>
    (names.filter (fun nm => nm == "*")).map (fun _ =>
      ⟨"wildcard_import", lineno, "warning",
        "Wildcard import from " ++
          (match module with
           | none => "None"
           | some m => m)⟩)
  | .otherN body => nodeListIssues body

/-- Issues contributed by a node list, in order. -/
def nodeListIssues : NodeList → List Issue
  | .nilN => []
  | .consN n rest => nodeIssues n ++ nodeListIssues rest

end

mutual

/-- The `(functions, classes, imports)` counters accumulated per node
(code_analyzer.py lines 179, 208, 219, 223). -/
def nodeCounts : Node → Nat × Nat × Nat
  | .fnN _ _ _ _ _ body =>
    let r := nodeCounts_list body
    (r.1 + 1, r.2.1, r.2.2)
  | .clsN _ _ _ body =>
    let r := nodeCounts_list body
    (r.1, r.2.1 + 1, r.2.2)
  | .importN _ names => (0, 0, names.length)
  | .importFromN _ _ names => (0, 0, names.length)
  | .otherN body => nodeCounts_list body

/-- Counter accumulation over a node list. -/
def nodeCounts_list : NodeList → Nat × Nat × Nat
  | .nilN => (0, 0, 0)
  | .consN n rest =>
    let a := nodeCounts n
    let b := nodeCounts_list rest
    (a.1 + b.1, a.2.1 + b.2.1, a.2.2 + b.2.2)

end

/-- Outcome of `ast.parse(code)`: a syntax failure carrying the
exception's best-effort line and text, or the parsed top-level node
list. -/
inductive ParseOutcome where
  | failed (line : Nat) (emsg : String)
  | parsed (body : NodeList)

/-- A source unit as `analyze_ast` consumes it: its raw line count
(`len(code.splitlines())`) and its parse outcome. -/
structure Source where
  lineCount : Nat
  parse : ParseOutcome

/-- The error string `f"Syntax error: {e}"` of `analyze_ast`
(code_analyzer.py line 173): `str(e)` of a syntax failure carries the
failure's message and line. -/
def errMsgOf (line : Nat) (emsg : String) : String :=
  "Syntax error: " ++ emsg ++ " (line " ++ Nat.repr line ++ ")"

/-- Result of `analyze_ast`: the error dictionary (error text plus the
partial stats, no `count` key) or the success dictionary (issues, stats,
`count = len(issues)`). -/
inductive AstResult where
  | astError (error : String) (stats : Stats)
  | astOk (issues : List Issue) (stats : Stats) (count : Nat)
deriving DecidableEq, Repr

/-- `CodeAnalyzer.analyze_ast` (code_analyzer.py lines 157-242). -/
def analyze_ast (src : Source) : AstResult :=
  match src.parse with
  | .failed line emsg =>
    .astError (errMsgOf line emsg) ⟨0, 0, src.lineCount, 0⟩
  | .parsed body =>
    let is := nodeListIssues body
    let c := nodeCounts_list body
    .astOk is ⟨c.1, c.2.1, src.lineCount, c.2.2⟩ is.length

/-- The issues list of an `analyze_ast` result (empty on the error
path, which carries no issues). -/
def issuesOfResult : AstResult → List Issue
  | .astOk is _ _ => is
  | .astError _ _ => []

/-- Recognizer for a missing-documentation issue located at line `l`. -/
def isMissingDocAt (l : Nat) (i : Issue) : Bool :=
  i.type == "missing_docstring" && i.line == l

mutual

/-- Number of function or class declarations at line `l` in the subtree
of `n` whose docstring is missing (falsy). -/
def undocAt (l : Nat) : Node → Nat
  | .fnN _ lineno _ doc _ body =>
    (if lineno == l && !docTruthy doc then 1 else 0) + undocAtL l body
  | .clsN _ lineno doc body =>
    (if lineno == l && !docTruthy doc then 1 else 0) + undocAtL l body
  | .importN _ _ => 0
  | .importFromN _ _ _ => 0
  | .otherN body => undocAtL l body

/-- `undocAt` summed over a node list. -/
def undocAtL (l : Nat) : NodeList → Nat
  | .nilN => 0
  | .consN n rest => undocAt l n + undocAtL l rest

end

mutual

/-- Number of function declarations (only) at line `l` in the subtree
of `n` whose docstring is missing. -/
def undocFnAt (l : Nat) : Node → Nat
  | .fnN _ lineno _ doc _ body =>
    (if lineno == l && !docTruthy doc then 1 else 0) + undocFnAtL l body
  | .clsN _ _ _ body => undocFnAtL l body
  | .importN _ _ => 0
  | .importFromN _ _ _ => 0
  | .otherN body => undocFnAtL l body

/-- `undocFnAt` summed over a node list. -/
def undocFnAtL (l : Nat) : NodeList → Nat
  | .nilN => 0
  | .consN n rest => undocFnAt l n + undocFnAtL l rest

end

mutual

/-- Attaching the description `d` to every declaration at line `l`
(the "same source with a description added" of the claim). -/
def addDocN (l : Nat) (d : String) : Node → Node
  | .fnN name lineno nargs doc endL body =>
    .fnN name lineno nargs (if lineno == l then some d else doc) endL
      (addDocNL l d body)
  | .clsN name lineno doc body =>
    .clsN name lineno (if lineno == l then some d else doc) (addDocNL l d body)
  | .importN ln names => .importN ln names
  | .importFromN ln m names => .importFromN ln m names
  | .otherN body => .otherN (addDocNL l d body)

/-- `addDocN` mapped over a node list. -/
def addDocNL (l : Nat) (d : String) : NodeList → NodeList
  | .nilN => .nilN
  | .consN n rest => .consN (addDocN l d n) (addDocNL l d rest)

end

mutual

theorem missing_count_node (l : Nat) (n : Node) :
    ((nodeIssues n).filter (isMissingDocAt l)).length = undocAt l n := by
  cases n with
  | fnN name lineno nargs doc endL body =>
    have hrec := missing_count_nodeList l body
    by_cases hdoc : docTruthy doc = true <;>
      by_cases hline : (lineno == l) = true <;>
        simp [nodeIssues, undocAt, List.filter_append, List.filter_cons,
          isMissingDocAt, hdoc, hline, hrec,
          apply_ite (List.filter (isMissingDocAt l))] <;>
        omega
  | clsN name lineno doc body =>
    have hrec := missing_count_nodeList l body
    by_cases hdoc : docTruthy doc = true <;>
      by_cases hline : (lineno == l) = true <;>
        simp [nodeIssues, undocAt, List.filter_append, List.filter_cons,
          isMissingDocAt, hdoc, hline, hrec] <;>
        omega
  | importN ln names => rfl
  | importFromN ln m names =>
    simp [nodeIssues, undocAt, isMissingDocAt]
  | otherN body =>
    simpa [nodeIssues, undocAt] using missing_count_nodeList l body

theorem missing_count_nodeList (l : Nat) (ns : NodeList) :
    ((nodeListIssues ns).filter (isMissingDocAt l)).length = undocAtL l ns := by
  cases ns with
  | nilN => rfl
  | consN n rest =>
    simp [nodeListIssues, undocAtL, List.filter_append,
      missing_count_node l n, missing_count_nodeList l rest]

end

mutual

theorem undocAt_addDocN (l : Nat) (d : String) (hd : ¬ d = "") (n : Node) :
    undocAt l (addDocN l d n) = 0 := by
  cases n with
  | fnN name lineno nargs doc endL body =>
    have hrec := undocAt_addDocNL l d hd body
    by_cases hl : (lineno == l) = true <;>
      simp [addDocN, undocAt, hl, hrec, docTruthy, hd, beq_iff_eq]
  | clsN name lineno doc body =>
    have hrec := undocAt_addDocNL l d hd body
    by_cases hl : (lineno == l) = true <;>
      simp [addDocN, undocAt, hl, hrec, docTruthy, hd, beq_iff_eq]
  | importN ln names => rfl
  | importFromN ln m names => rfl
  | otherN body =>
    simpa [addDocN, undocAt] using undocAt_addDocNL l d hd body

theorem undocAt_addDocNL (l : Nat) (d : String) (hd : ¬ d = "")
    (ns : NodeList) : undocAtL l (addDocNL l d ns) = 0 := by
  cases ns with
  | nilN => rfl
  | consN n rest =>
    simp [addDocNL, undocAtL, undocAt_addDocN l d hd n,
      undocAt_addDocNL l d hd rest]

end

/-- C6: the structural evaluation is a total function — on a parse
failure it returns the error record with the failure's line rendered in
the message and partial stats holding only the line count (counters
zero); on every parsed input it returns the issues and stats, with the
count equal to the number of issues and the stats carrying the input's
line count. -/
theorem c6_structural (src : Source) :
    (∀ line emsg, src.parse = ParseOutcome.failed line emsg →
      analyze_ast src =
        AstResult.astError (errMsgOf line emsg) ⟨0, 0, src.lineCount, 0⟩) ∧
    (∀ body, src.parse = ParseOutcome.parsed body →
      ∃ st, analyze_ast src =
          AstResult.astOk (nodeListIssues body) st (nodeListIssues body).length ∧
        st.lines = src.lineCount) := by
  constructor
  · intro line emsg h
    unfold analyze_ast
    rw [h]
  · intro body h
    refine ⟨⟨(nodeCounts_list body).1, (nodeCounts_list body).2.1,
      src.lineCount, (nodeCounts_list body).2.2⟩, ?_, rfl⟩
    unfold analyze_ast
    rw [h]

/-- The unparsable source used to witness the failure branch of C6. -/
def srcBad : Source := ⟨5, .failed 2 "invalid syntax"⟩

/-- The trivially parsed source used to witness the success branch of
C6. -/
def srcEmpty : Source := ⟨1, .parsed .nilN⟩

/-- Witness for `c6_structural` on both branches. -/
theorem c6_structural_witness :
    analyze_ast srcBad =
      AstResult.astError (errMsgOf 2 "invalid syntax") ⟨0, 0, 5, 0⟩ ∧
    (∃ st, analyze_ast srcEmpty =
        AstResult.astOk (nodeListIssues NodeList.nilN) st
          (nodeListIssues NodeList.nilN).length ∧
      st.lines = 1) :=
  ⟨(c6_structural srcBad).1 2 "invalid syntax" rfl,
   (c6_structural srcEmpty).2 .nilN rfl⟩

/-- The parsed body of a module with a single undocumented function
`foo` at line 1, used to witness C8. -/
def bodyC8 : NodeList := .consN (.fnN "foo" 1 0 none (some 2) .nilN) .nilN

/-- The source wrapping `bodyC8`. -/
def srcC8 : Source := ⟨3, .parsed bodyC8⟩

/-- C8: for a parsed source containing, at line `l`, exactly one
declaration with a missing docstring — and it is a function — the
structural evaluation yields exactly one missing-documentation issue at
line `l`; attaching a (nonempty) description to the declarations at
line `l` removes it; and re-running the evaluation yields the same
result. -/
theorem c8_missing_doc (src : Source) (body : NodeList) (l : Nat)
    (d : String) (hp : src.parse = ParseOutcome.parsed body)
    (h1 : undocAtL l body = 1) (h2 : undocFnAtL l body = 1)
    (hd : ¬ d = "") :
    ((issuesOfResult (analyze_ast src)).filter (isMissingDocAt l)).length = 1 ∧
    ((issuesOfResult (analyze_ast
        ⟨src.lineCount, ParseOutcome.parsed (addDocNL l d body)⟩)).filter
      (isMissingDocAt l)) = [] ∧
    analyze_ast src = analyze_ast src := by
  refine ⟨?_, ?_, rfl⟩
  · have hi : issuesOfResult (analyze_ast src) = nodeListIssues body := by
      unfold analyze_ast
      rw [hp]
      rfl
    rw [hi, missing_count_nodeList l body]
    exact h1
  · have hi : issuesOfResult (analyze_ast
        ⟨src.lineCount, ParseOutcome.parsed (addDocNL l d body)⟩) =
        nodeListIssues (addDocNL l d body) := rfl
    rw [hi]
    have hlen : ((nodeListIssues (addDocNL l d body)).filter
        (isMissingDocAt l)).length = 0 := by
      rw [missing_count_nodeList]
      exact undocAt_addDocNL l d hd body
    exact List.eq_nil_of_length_eq_zero hlen

/-- Witness for `c8_missing_doc` on the one-function module. -/
theorem c8_missing_doc_witness :
    srcC8.parse = ParseOutcome.parsed bodyC8 ∧
    undocAtL 1 bodyC8 = 1 ∧
    undocFnAtL 1 bodyC8 = 1 ∧
    ¬ ("doc" : String) = "" ∧
    (((issuesOfResult (analyze_ast srcC8)).filter (isMissingDocAt 1)).length = 1 ∧
     ((issuesOfResult (analyze_ast
         ⟨srcC8.lineCount, ParseOutcome.parsed (addDocNL 1 "doc" bodyC8)⟩)).filter
       (isMissingDocAt 1)) = [] ∧
     analyze_ast srcC8 = analyze_ast srcC8) :=
  ⟨rfl, rfl, rfl, by decide,
    c8_missing_doc srcC8 bodyC8 1 "doc" rfl rfl rfl (by decide)⟩

/-! ### The `code_review` aggregation of server.py -/

/-- Result of one external analyzer adapter carrying a `count` key on
success (`run_pylint`, `run_flake8`, `run_mypy`, `run_bandit`): the
success dictionary's count, or an error dictionary (which has no
`count`). -/
inductive ProvResult where
  | ok (count : Nat)
  | err (msg : String)
deriving DecidableEq, Repr

/-- Result of `run_radon`, whose success dictionary carries complexity
data but never a `count` key (code_analyzer.py lines 124-155). -/
inductive RadonResult where
  | okR
  | errR (msg : String)
deriving DecidableEq, Repr

/-- The provider results available to one `code_review` call: `none`
models an analyzer absent from the request's `analyzers` list;
`useAst` tells whether the structural `ast` analyzer was requested.
The subprocess adapters are external collaborators, so their outcomes
are inputs here. -/
structure ProviderInputs where
  pylint : Option ProvResult
  flake8 : Option ProvResult
  mypy : Option ProvResult
  bandit : Option ProvResult
  radon : Option RadonResult
  useAst : Bool

/-- A value stored under `results["analyzers"][name]`. -/
inductive SlotVal where
  | provV (r : ProvResult)
  | radV (r : RadonResult)
  | astV (r : AstResult)
deriving DecidableEq, Repr

/-- The summary block of the review report (server.py lines 159-164). -/
structure Summary where
  total_issues : Nat
  critical : Nat
  warning : Nat
  info : Nat
deriving DecidableEq, Repr

/-- The aggregated review: summary plus the per-analyzer results in
insertion order. -/
structure ReviewReport where
  summary : Summary
  analyzers : List (String × SlotVal)

/-- `result.get("count", 0)`: an error dictionary has no `count`. -/
def getCount : ProvResult → Nat
  | .ok n => n
  | .err _ => 0

/-- Count contribution of a possibly absent provider. -/
def optCount : Option ProvResult → Nat
  | none => 0
  | some r => getCount r

/-- `result.get("count", 0)` on the `ast` result: the error dictionary
has no `count` key. -/
def astCount : AstResult → Nat
  | .astOk _ _ c => c
  | .astError _ _ => 0

/-- The `results["analyzers"]` entry a counted provider contributes. -/
def provEntry (nm : String) : Option ProvResult → List (String × SlotVal)
  | none => []
  | some r => [(nm, .provV r)]

/-- The `code_review` aggregation (server.py lines 157-199): each
requested analyzer's result is stored verbatim; `total_issues` adds the
`count` of pylint, flake8, mypy, bandit and ast (radon's result has no
count and adds nothing); `critical` adds only bandit's count; the
`warning` and `info` buckets are never touched. -/
def code_review (inp : ProviderInputs) (src : Source) : ReviewReport :=
  let astRes := analyze_ast src
  let total := optCount inp.pylint + optCount inp.flake8 + optCount inp.mypy +
    optCount inp.bandit + (if inp.useAst then astCount astRes else 0)
  let entries :=
    provEntry "pylint" inp.pylint ++ provEntry "flake8" inp.flake8 ++
    provEntry "mypy" inp.mypy ++ provEntry "bandit" inp.bandit ++
    (match inp.radon with
     | none => []
     | some r => [("radon", SlotVal.radV r)]) ++
    (if inp.useAst then [("ast", SlotVal.astV astRes)] else [])
  ⟨⟨total, optCount inp.bandit, 0, 0⟩, entries⟩

/-- Modelled from the spec: the present (requested) counted provider
results, in request order. -/
def presentProvResults (inp : ProviderInputs) : List ProvResult :=
  inp.pylint.toList ++ inp.flake8.toList ++ inp.mypy.toList ++
    inp.bandit.toList

/-- Modelled from the spec: the sum of the `count` fields of the
non-error provider results (error results contribute 0). -/
def sumCounts (l : List ProvResult) : Nat :=
  l.foldr (fun r acc => getCount r + acc) 0

/-- Modelled from the spec: the structural issue count — the number of
issues the structural (`ast`) section carries, 0 when it was not
requested or failed to parse. -/
def structuralIssueCount (inp : ProviderInputs) (src : Source) : Nat :=
  if inp.useAst then (issuesOfResult (analyze_ast src)).length else 0

theorem sumCounts_append (a b : List ProvResult) :
    sumCounts (a ++ b) = sumCounts a + sumCounts b := by
  induction a with
  | nil => simp [sumCounts]
  | cons r t ih =>
    show getCount r + sumCounts (t ++ b) =
      getCount r + sumCounts t + sumCounts b
    rw [ih]
    omega

theorem sumCounts_toList (x : Option ProvResult) :
    sumCounts x.toList = optCount x := by
  cases x <;> simp [sumCounts, optCount]

theorem astCount_issues (src : Source) :
    astCount (analyze_ast src) = (issuesOfResult (analyze_ast src)).length := by
  unfold analyze_ast
  cases src.parse <;> simp [astCount, issuesOfResult]

/-- C5: the aggregation is a total function of its inputs (it never
raises, whatever combination of present, absent and errored providers),
`summary.total_issues` equals the structural issue count plus the sum
of the `count` fields of the non-error provider results (errored ones
contribute 0), and every errored provider's result is recorded verbatim
under its source name. -/
theorem c5_aggregation (inp : ProviderInputs) (src : Source) :
    (code_review inp src).summary.total_issues =
      structuralIssueCount inp src + sumCounts (presentProvResults inp) ∧
    (∀ m, inp.pylint = some (.err m) →
      ("pylint", SlotVal.provV (.err m)) ∈ (code_review inp src).analyzers) ∧
    (∀ m, inp.flake8 = some (.err m) →
      ("flake8", SlotVal.provV (.err m)) ∈ (code_review inp src).analyzers) ∧
    (∀ m, inp.mypy = some (.err m) →
      ("mypy", SlotVal.provV (.err m)) ∈ (code_review inp src).analyzers) ∧
    (∀ m, inp.bandit = some (.err m) →
      ("bandit", SlotVal.provV (.err m)) ∈ (code_review inp src).analyzers) ∧
    (∀ m, inp.radon = some (.errR m) →
      ("radon", SlotVal.radV (.errR m)) ∈ (code_review inp src).analyzers) := by
  refine ⟨?_, ?_, ?_, ?_, ?_, ?_⟩
  · show (code_review inp src).summary.total_issues = _
    unfold code_review structuralIssueCount presentProvResults
    rw [sumCounts_append, sumCounts_append, sumCounts_append,
      sumCounts_toList, sumCounts_toList, sumCounts_toList, sumCounts_toList]
    by_cases h : inp.useAst <;> simp [h, astCount_issues] <;> omega
  · intro m hm
    simp [code_review, provEntry, hm]
  · intro m hm
    simp [code_review, provEntry, hm]
  · intro m hm
    simp [code_review, provEntry, hm]
  · intro m hm
    simp [code_review, provEntry, hm]
  · intro m hm
    simp [code_review, provEntry, hm]

/-- Concrete provider inputs with an errored pylint, a succeeding
flake8 and bandit, an errored radon, and the ast analyzer requested. -/
def inpW : ProviderInputs :=
  ⟨some (.err "boom"), some (.ok 2), none, some (.ok 3), some (.errR "x"), true⟩

/-- A parsed source with one undocumented function, for the C5
witness. -/
def srcW : Source := ⟨2, .parsed (.consN (.fnN "bar" 1 0 none (some 2) .nilN) .nilN)⟩

/-- Witness for `c5_aggregation` at a concrete combination of present,
absent and errored providers. -/
theorem c5_aggregation_witness :
    (code_review inpW srcW).summary.total_issues =
      structuralIssueCount inpW srcW + sumCounts (presentProvResults inpW) ∧
    inpW.pylint = some (.err "boom") ∧
    ("pylint", SlotVal.provV (.err "boom")) ∈ (code_review inpW srcW).analyzers ∧
    inpW.radon = some (.errR "x") ∧
    ("radon", SlotVal.radV (.errR "x")) ∈ (code_review inpW srcW).analyzers :=
  ⟨(c5_aggregation inpW srcW).1, rfl,
    (c5_aggregation inpW srcW).2.1 "boom" rfl, rfl,
    (c5_aggregation inpW srcW).2.2.2.2.2 "x" rfl⟩

/-- Provider inputs requesting only the structural analyzer. -/
def inpAstOnly : ProviderInputs := ⟨none, none, none, none, none, true⟩

/-- A parsed source with one undocumented function producing exactly one
`info`-severity issue, for the C7 counterexample. -/
def srcInfoIssue : Source :=
  ⟨2, .parsed (.consN (.fnN "foo" 1 0 none (some 2) .nilN) .nilN)⟩

/-- C7 counterexample: the structural section contributes one issue of
severity `info`, the report counts it in `total_issues`, yet the
summary's `info` (and `warning`) buckets stay 0 — no roll-up of
non-critical severities happens. -/
theorem c7_counterexample :
    (code_review inpAstOnly srcInfoIssue).summary.total_issues = 1 ∧
    (issuesOfResult (analyze_ast srcInfoIssue)).map Issue.severity = ["info"] ∧
    (code_review inpAstOnly srcInfoIssue).summary.info = 0 ∧
    (code_review inpAstOnly srcInfoIssue).summary.warning = 0 := by
  refine ⟨rfl, rfl, rfl, rfl⟩

/-- C7 (amended): only the security-class provider's (bandit's) count is
added to the `critical` bucket, and the `warning` and `info` buckets are
never incremented — they are 0 in every report, whatever the issues'
severities. -/
theorem c7_amended (inp : ProviderInputs) (src : Source) :
    (code_review inp src).summary.critical = optCount inp.bandit ∧
    (code_review inp src).summary.warning = 0 ∧
    (code_review inp src).summary.info = 0 := by
  refine ⟨rfl, rfl, rfl⟩

/-- Witness for `c10_underscore` at a concrete module. -/
theorem c10_underscore_witness :
    startsWithStr "_helper" "_" = true ∧
    generate_tests
        ([] ++ TopItem.fnT ⟨"_helper", [], none, none, .nilS⟩ :: []) "module" =
      generate_tests ([] ++ []) "module" :=
  ⟨by decide,
    (c10_underscore [] [] ⟨"_helper", [], none, none, .nilS⟩ "C" [] []
      "module" (by decide)).1⟩

end NeuroDev
